import Mathlib

/-
Verification development for the SplitwiseAI member-side app.

The frontend components are shallowly embedded as Lean definitions:
React component state becomes a structure, each event handler becomes a
state-transition function, and server responses become explicit
parameters of the transition.  Monetary amounts are modelled as
rationals; JavaScript division (which can produce Infinity/NaN) is
modelled by an explicit JSNum type where division by zero matters.
-/

namespace SplitwiseAI

/-! ## Data model of BatchReviewComponent
    (member-app/frontend/components/BatchReviewComponent.tsx) -/

/-- The validation block of PreviewData. -/
structure Validation where
  total_matches : Bool
  original_total : ℚ
  new_total : ℚ
  difference : ℚ
deriving DecidableEq

/-- One entry of PreviewData.item_changes. -/
structure ItemChange where
  item_name : String
  original_members : List String
  new_members : List String
  added_members : List String
  removed_members : List String
  price : ℚ
  original_split_per_person : ℚ
  new_split_per_person : ℚ
  member_count_change : Int
deriving DecidableEq

/-- One entry of PreviewData.member_differences. -/
structure MemberDiff where
  original_amount : ℚ
  new_amount : ℚ
  difference : ℚ
  percentage_change : ℚ
deriving DecidableEq

/-- The summary block of PreviewData. -/
structure SummaryData where
  items_affected : ℕ
  members_affected : ℕ
  total_requests : ℕ
deriving DecidableEq

/-- The PreviewData interface received from the preview endpoint. -/
structure PreviewData where
  expense_id : String
  expense_description : String
  expense_total : ℚ
  original_splits : List (String × ℚ)
  new_splits : List (String × ℚ)
  member_differences : List (String × MemberDiff)
  item_changes : List ItemChange
  validation : Validation
  summary : SummaryData
deriving DecidableEq

/-- The workflowStep state variable: "decisions" | "preview" | "completed". -/
inductive WorkflowStep where
  | decisions
  | preview
  | completed
deriving DecidableEq

/-- The in-memory state of BatchReviewComponent (its useState hooks).
    groupedRequests is abstracted to the list of expense ids it holds,
    which is all the transition logic reads from it. -/
structure BatchState where
  groupedRequests : List String
  selectedExpense : Option String
  selectedRequests : Finset String
  rejectedRequests : Finset String
  preview : Option PreviewData
  workflowStep : WorkflowStep
  processing : Bool
  adminNotes : String
  expenseStatus : Option String
  commentPreview : Option String
deriving DecidableEq

/-- Initial component state from the useState initialisers. -/
def initState : BatchState :=
  { groupedRequests := []
    selectedExpense := none
    selectedRequests := ∅
    rejectedRequests := ∅
    preview := none
    workflowStep := WorkflowStep.decisions
    processing := false
    adminNotes := ""
    expenseStatus := none
    commentPreview := none }

/-! ## Event handlers of BatchReviewComponent -/

/-- fetchGroupedRequests: on a successful response, stores the grouped
    requests (abstracted to their expense ids). -/
def fetchGroupedRequests (s : BatchState) (ids : List String) : BatchState :=
  { s with groupedRequests := ids }

/-- handleExpenseSelect: selects an expense and resets the in-memory
    decision state (lines 285-291 of my-requests.tsx). -/
def handleExpenseSelect (s : BatchState) (expenseId : String) : BatchState :=
  { s with selectedExpense := some expenseId
           selectedRequests := ∅
           rejectedRequests := ∅
           preview := none
           workflowStep := WorkflowStep.decisions }

/-- Mapping from the server's workflow_status string to the component's
    workflowStep, exactly as in checkExpenseStatus; any other string
    leaves the step unchanged. -/
def stepOfStatus (cur : WorkflowStep) (ws : String) : WorkflowStep :=
  if ws = "needs_decisions" then WorkflowStep.decisions
  else if ws = "ready_for_preview" then WorkflowStep.preview
  else if ws = "completed" then WorkflowStep.completed
  else cur

/-- checkExpenseStatus: resp is some workflow_status when the response
    was OK, none when the request failed (the catch branch only logs). -/
def checkExpenseStatus (s : BatchState) (resp : Option String) : BatchState :=
  match resp with
  | none => s
  | some ws =>
      { s with expenseStatus := some ws
               workflowStep := stepOfStatus s.workflowStep ws }

/-- The two buttons handled by toggleRequestSelection. -/
inductive ToggleAction where
  | approve
  | reject
deriving DecidableEq

/-- toggleRequestSelection (lines 293-324): approve toggles membership
    in selectedRequests and, when adding, removes the id from
    rejectedRequests; reject is symmetric. -/
def toggleRequestSelection (s : BatchState) (requestId : String)
    (a : ToggleAction) : BatchState :=
  match a with
  | ToggleAction.approve =>
      if requestId ∈ s.selectedRequests then
        { s with selectedRequests := s.selectedRequests.erase requestId }
      else
        { s with selectedRequests := insert requestId s.selectedRequests
                 rejectedRequests := s.rejectedRequests.erase requestId }
  | ToggleAction.reject =>
      if requestId ∈ s.rejectedRequests then
        { s with rejectedRequests := s.rejectedRequests.erase requestId }
      else
        { s with rejectedRequests := insert requestId s.rejectedRequests
                 selectedRequests := s.selectedRequests.erase requestId }

/-- The request body commitDecisions sends (lines 339-344), abstracted
    to the two id collections. -/
def commitRequestBody (s : BatchState) : Finset String × Finset String :=
  (s.selectedRequests, s.rejectedRequests)

/-- commitDecisions: early return when no expense is selected; on an OK
    response the step is set to "preview" (the subsequent
    checkExpenseStatus call is a separate transition); on a failed
    response only an alert is shown.  processing ends false either way
    (the finally block). -/
def commitDecisions (s : BatchState) (ok : Bool) : BatchState :=
  match s.selectedExpense with
  | none => s
  | some _ =>
      if ok then
        { s with workflowStep := WorkflowStep.preview, processing := false }
      else
        { s with processing := false }

/-- Possible outcomes of the preview request. -/
inductive PreviewResp where
  | ready (p : PreviewData) (c : String)
  | notReady
  | failed
deriving DecidableEq

/-- previewSplitwiseChanges: on an OK response with status
    "preview_ready" it stores the preview and comment preview; any other
    outcome only alerts. -/
def previewSplitwiseChanges (s : BatchState) (r : PreviewResp) : BatchState :=
  match s.selectedExpense with
  | none => s
  | some _ =>
      match r with
      | PreviewResp.ready p c =>
          { s with preview := some p
                   commentPreview := some c
                   processing := false }
      | _ => { s with processing := false }

/-- applyToSplitwiseAndMongoDB: on an OK response the step is set to
    "completed" (the subsequent checkExpenseStatus and
    fetchGroupedRequests calls are separate transitions); a failed
    response only alerts. -/
def applyToSplitwiseAndMongoDB (s : BatchState) (ok : Bool) : BatchState :=
  match s.selectedExpense with
  | none => s
  | some _ =>
      if ok then
        { s with workflowStep := WorkflowStep.completed, processing := false }
      else
        { s with processing := false }

/-- The "Go Back to Decisions" button (lines 1022-1026). -/
def goBackToDecisions (s : BatchState) : BatchState :=
  { s with preview := none
           commentPreview := none
           workflowStep := WorkflowStep.decisions }

/-- The "Process Another Group" button on the completed screen
    (lines 1087-1090). -/
def processAnotherGroup (s : BatchState) : BatchState :=
  { s with selectedExpense := none
           workflowStep := WorkflowStep.decisions }

/-- The admin-notes textarea onChange. -/
def setAdminNotes (s : BatchState) (n : String) : BatchState :=
  { s with adminNotes := n }

/-! ## Render guards -/

/-- selectedExpenseData = groupedRequests.find(g => g.expense_id ===
    selectedExpense): true when the selected expense is present in the
    grouped list. -/
def selectedExpenseData (s : BatchState) : Bool :=
  match s.selectedExpense with
  | none => false
  | some e => s.groupedRequests.contains e

/-- The apply button is rendered only inside the preview-step block,
    which itself renders only when selectedExpenseData is present and
    a preview has been stored (lines 699 and 729). -/
def applyButtonRendered (s : BatchState) : Bool :=
  selectedExpenseData s
    && decide (s.workflowStep = WorkflowStep.preview)
    && s.preview.isSome

/-- The apply button is usable iff rendered and not disabled; its
    disabled attribute is processing || !preview.validation.total_matches
    (line 1034). -/
def applyButtonEnabled (s : BatchState) : Bool :=
  applyButtonRendered s
    && !s.processing
    && (match s.preview with
        | some p => p.validation.total_matches
        | none => false)

/-- The commit button is rendered in the decisions block and disabled
    while processing or when no decision has been made (lines 679-682). -/
def commitButtonEnabled (s : BatchState) : Bool :=
  selectedExpenseData s
    && decide (s.workflowStep = WorkflowStep.decisions)
    && !s.processing
    && !(s.selectedRequests.card == 0 && s.rejectedRequests.card == 0)

/-! ## Caller-initiated transitions as a labelled transition system -/

/-- The caller-initiated events of BatchReviewComponent, with the server
    response each carries. -/
inductive Event where
  | fetchGrouped (ids : List String)
  | selectExpense (expenseId : String)
  | checkStatus (resp : Option String)
  | toggle (requestId : String) (a : ToggleAction)
  | commit (ok : Bool)
  | previewReq (r : PreviewResp)
  | applyReq (ok : Bool)
  | goBack
  | processAnother
  | setNotes (n : String)
deriving DecidableEq

/-- Whether the UI lets the admin fire the event in state s: button
    render conditions and disabled attributes from the JSX. -/
def eventEnabled (s : BatchState) (e : Event) : Bool :=
  match e with
  | Event.fetchGrouped _ => true
  | Event.selectExpense eid => s.groupedRequests.contains eid
  | Event.checkStatus _ => s.selectedExpense.isSome
  | Event.toggle _ _ =>
      selectedExpenseData s && decide (s.workflowStep = WorkflowStep.decisions)
  | Event.commit _ => commitButtonEnabled s
  | Event.previewReq _ =>
      selectedExpenseData s && decide (s.workflowStep = WorkflowStep.preview)
        && !s.processing
  | Event.applyReq _ => applyButtonEnabled s
  | Event.goBack =>
      selectedExpenseData s && decide (s.workflowStep = WorkflowStep.preview)
        && s.preview.isSome
  | Event.processAnother => decide (s.workflowStep = WorkflowStep.completed)
  | Event.setNotes _ =>
      selectedExpenseData s && decide (s.workflowStep = WorkflowStep.decisions)

/-- The raw effect of each event, dispatching to the handler models. -/
def applyEvent (s : BatchState) (e : Event) : BatchState :=
  match e with
  | Event.fetchGrouped ids => fetchGroupedRequests s ids
  | Event.selectExpense eid => handleExpenseSelect s eid
  | Event.checkStatus resp => checkExpenseStatus s resp
  | Event.toggle rid a => toggleRequestSelection s rid a
  | Event.commit ok => commitDecisions s ok
  | Event.previewReq r => previewSplitwiseChanges s r
  | Event.applyReq ok => applyToSplitwiseAndMongoDB s ok
  | Event.goBack => goBackToDecisions s
  | Event.processAnother => processAnotherGroup s
  | Event.setNotes n => setAdminNotes s n

/-- Guarded step: an event that the UI does not offer leaves the state
    unchanged. -/
def stepEvent (s : BatchState) (e : Event) : BatchState :=
  if eventEnabled s e then applyEvent s e else s

/-- States reachable from the initial component state by caller-initiated
    events. -/
inductive Reachable : BatchState → Prop where
  | init : Reachable initState
  | step (s : BatchState) (e : Event) : Reachable s → Reachable (stepEvent s e)

/-! ## Error display of applyToSplitwiseAndMongoDB
    (lines 424-440 of my-requests.tsx) -/

/-- What the apply fetch can come back with at the frontend: an OK
    response with a message, a non-OK response with a detail string, or
    a thrown network error. -/
inductive ApplyResp where
  | success (message : String)
  | httpError (detail : String)
  | networkError
deriving DecidableEq

/-- The alert string the component shows for each apply outcome. -/
def applyResultAlert (r : ApplyResp) : String :=
  match r with
  | ApplyResp.success m => "🎉 SUCCESS!\n" ++ m
  | ApplyResp.httpError d => "❌ CRITICAL ERROR:\n" ++ d
  | ApplyResp.networkError => "❌ Network error occurred"

/-- Modelled from the spec: the backend applyChanges operation (spec 4.4
    and 6), which is not under src/, reports success, an ordinary
    retryable failure (external ledger update failed, nothing mutated),
    or a critical failure (ledger updated but the internal mirror write
    failed), each carrying a reason string. -/
inductive ApplyOutcome where
  | success (message : String)
  | ordinaryFailure (reason : String)
  | criticalFailure (reason : String)
deriving DecidableEq

/-- Modelled from the spec: how the backend outcome reaches the
    frontend.  Success is the only OK response; both failure classes are
    surfaced as a non-OK HTTP response carrying the failure reason as
    its detail (spec 6: applyChanges -> success|CriticalFailure|
    OrdinaryFailure; spec 7: failures are surfaced to the admin). -/
def outcomeToResp (o : ApplyOutcome) : ApplyResp :=
  match o with
  | ApplyOutcome.success m => ApplyResp.success m
  | ApplyOutcome.ordinaryFailure r => ApplyResp.httpError r
  | ApplyOutcome.criticalFailure r => ApplyResp.httpError r

/-! ## Admin access gate (member-app/frontend/pages/admin.tsx) -/

/-- Outcome of the probe of the pending-updates endpoint. -/
inductive ProbeResult where
  | ok
  | forbidden
  | otherError
  | thrown
deriving DecidableEq

/-- The state of AdminPage: isAdmin (null before a probe completes) and
    the loading flag. -/
structure AdminPageState where
  isAdmin : Option Bool
  loading : Bool
deriving DecidableEq

/-- Initial AdminPage state: isAdmin null, loading true. -/
def initialAdminState : AdminPageState :=
  { isAdmin := none, loading := true }

/-- checkAdminStatus: when the user object is not loaded it returns
    early (the finally block still clears loading); otherwise isAdmin is
    set from the probe: 403 -> false, OK -> true, other non-OK -> false,
    thrown -> false.  The probe argument is ignored on the early return
    because no request is made there. -/
def checkAdminStatus (s : AdminPageState) (isLoaded : Bool)
    (probe : ProbeResult) : AdminPageState :=
  if !isLoaded then { s with loading := false }
  else
    { isAdmin := some (match probe with
        | ProbeResult.ok => true
        | ProbeResult.forbidden => false
        | ProbeResult.otherError => false
        | ProbeResult.thrown => false)
      loading := false }

/-- What AdminPage renders. -/
inductive AdminRender where
  | spinner
  | accessDenied
  | dashboard
deriving DecidableEq

/-- The render branches of AdminPage: spinner while loading, Access
    Denied when isAdmin === false, otherwise AdminDashboard. -/
def renderAdminPage (s : AdminPageState) : AdminRender :=
  if s.loading then AdminRender.spinner
  else if s.isAdmin = some false then AdminRender.accessDenied
  else AdminRender.dashboard

/-! ## Member-facing per-item share
    (SplitDetail.tsx line 161 and Dashboard.tsx line 150) -/

/-- An item as stored on a Split record: name, price, members. -/
structure SplitItem where
  name : String
  price : ℚ
  members : List String
deriving DecidableEq

/-- JavaScript numbers as far as these components exercise them: a
    finite value (idealised as a rational) or one of the special values
    produced by division by zero. -/
inductive JSNum where
  | fin (q : ℚ)
  | posInf
  | negInf
  | nan
deriving DecidableEq

/-- Finiteness of a JS number. -/
def JSNum.isFinite : JSNum → Bool
  | JSNum.fin _ => true
  | _ => false

/-- JavaScript division on finite operands: a / 0 is Infinity, -Infinity
    or NaN depending on the sign of a; otherwise the exact quotient. -/
def jsDiv (a b : ℚ) : JSNum :=
  if b = 0 then
    if 0 < a then JSNum.posInf
    else if a < 0 then JSNum.negInf
    else JSNum.nan
  else JSNum.fin (a / b)

/-- splitAmount in SplitDetail: item.price / item.members.length, with
    no guard on an empty member list. -/
def splitAmount (item : SplitItem) : JSNum :=
  jsDiv item.price item.members.length

/-- The per-item share shown in the Dashboard "Your Items" list:
    item.price / item.members.length, likewise unguarded. -/
def dashboardItemShare (item : SplitItem) : JSNum :=
  jsDiv item.price item.members.length

/-- The Dashboard "Your Items" rows: the items whose member list
    contains the viewing member, each with the displayed per-item share. -/
def dashboardYourItems (items : List SplitItem) (memberName : String) :
    List (String × JSNum) :=
  (items.filter (fun it => it.members.contains memberName)).map
    (fun it => (it.name, dashboardItemShare it))

/-! ## Spec-modelled Split Calculator and Reconciliation Validator
    (the backend implementing spec 4.1-4.2 is not under src/) -/

/-- The two actions a change request can carry. -/
inductive ReqAction where
  | join
  | leave
deriving DecidableEq

/-- Modelled from the spec: an approved ChangeRequest as the Split
    Calculator consumes it (spec 4.1): requester identity, item name and
    join/leave action. -/
structure ApprovedChange where
  requester : String
  item_name : String
  action : ReqAction
deriving DecidableEq

/-- Modelled from the spec: an item of the expense as the backend holds
    it (spec 3): name, price, current member set. -/
structure Item where
  name : String
  price : ℚ
  members : Finset String
deriving DecidableEq

/-- Modelled from the spec: the requesters of approved join requests for
    the named item. -/
def joiners (itemName : String) (approved : List ApprovedChange) : Finset String :=
  ((approved.filter (fun r =>
      r.item_name = itemName ∧ r.action = ReqAction.join)).map
    (fun r => r.requester)).toFinset

/-- Modelled from the spec: the requesters of approved leave requests
    for the named item. -/
def leavers (itemName : String) (approved : List ApprovedChange) : Finset String :=
  ((approved.filter (fun r =>
      r.item_name = itemName ∧ r.action = ReqAction.leave)).map
    (fun r => r.requester)).toFinset

/-- Modelled from the spec: (4.1) new_members = current_members ∪
    approved joiners − approved leavers. -/
def newMembers (it : Item) (approved : List ApprovedChange) : Finset String :=
  (it.members ∪ joiners it.name approved) \ leavers it.name approved

/-- Modelled from the spec: (4.1) new per-person allocation =
    price / |new_members|. -/
def newSplitPerPerson (it : Item) (approved : List ApprovedChange) : ℚ :=
  it.price / (newMembers it approved).card

/-- Modelled from the spec: (4.2) aggregate new_total_expense = sum of
    new_split_per_person × |new_members| over items. -/
def newTotalExpense (items : List Item) (approved : List ApprovedChange) : ℚ :=
  (items.map (fun it =>
      newSplitPerPerson it approved * (newMembers it approved).card)).sum

/-- Modelled from the spec: (4.2) the validation result the
    Reconciliation Validator places in the SplitPreview, comparing the
    aggregate new total against the original expense total with a
    one-cent tolerance. -/
def reconciliationValidator (items : List Item) (approved : List ApprovedChange)
    (originalTotal : ℚ) : Validation :=
  let nt := newTotalExpense items approved
  { total_matches := decide (|nt - originalTotal| ≤ 1 / 100)
    original_total := originalTotal
    new_total := nt
    difference := nt - originalTotal }

/-! ## Concrete sample data (the spec's pizza/soda scenario, used for
    witnesses) -/

/-- The Pizza item of the spec's worked scenario: 30 shared by A, B, C. -/
def pizzaItem : Item :=
  { name := "Pizza", price := 30, members := {"A", "B", "C"} }

/-- The Soda item of the spec's worked scenario: 30 shared by A, B. -/
def sodaItem : Item :=
  { name := "Soda", price := 30, members := {"A", "B"} }

/-- The approved changes of the scenario: D joins Pizza, A leaves Pizza. -/
def sampleApproved : List ApprovedChange :=
  [ { requester := "D", item_name := "Pizza", action := ReqAction.join },
    { requester := "A", item_name := "Pizza", action := ReqAction.leave } ]

/-- A concrete SplitItem for the member-facing views. -/
def pizzaSplitItem : SplitItem :=
  { name := "Pizza", price := 30, members := ["A", "B", "C"] }

/-- A SplitItem whose member list is empty. -/
def emptySplitItem : SplitItem :=
  { name := "Pizza", price := 30, members := [] }

/-! ## Theorems -/

/-- C1: in every state of BatchReviewComponent in which the preview is
    null or the preview's validation reports total_matches = false, the
    apply action (applyToSplitwiseAndMongoDB) is not available to the
    admin: the apply button is either not rendered or disabled.  Proved
    for all states, hence in particular for all reachable ones. -/
theorem apply_unavailable_without_valid_preview (s : BatchState)
    (h : s.preview = none ∨
         ∃ p, s.preview = some p ∧ p.validation.total_matches = false) :
    applyButtonEnabled s = false := by
  rcases h with h | ⟨p, hp, hm⟩
  · simp [applyButtonEnabled, applyButtonRendered, h]
  · simp [applyButtonEnabled, hp, hm]

/-- Witness for C1: in the initial state the preview is null and the
    apply action is not available. -/
theorem apply_unavailable_without_valid_preview_witness :
    initState.preview = none ∧ applyButtonEnabled initState = false :=
  ⟨rfl, apply_unavailable_without_valid_preview initState (Or.inl rfl)⟩

/-- C4: selecting any expense in any prior state empties both decision
    sets, clears the preview and puts the workflow step back to
    decisions. -/
theorem expense_select_resets_decisions (s : BatchState) (expenseId : String) :
    (handleExpenseSelect s expenseId).selectedRequests = ∅ ∧
    (handleExpenseSelect s expenseId).rejectedRequests = ∅ ∧
    (handleExpenseSelect s expenseId).preview = none ∧
    (handleExpenseSelect s expenseId).workflowStep = WorkflowStep.decisions ∧
    (handleExpenseSelect s expenseId).selectedExpense = some expenseId :=
  ⟨rfl, rfl, rfl, rfl, rfl⟩

/-- C5: the Go Back to Decisions action clears preview and
    commentPreview, returns the step to decisions, and leaves every
    other piece of component state unchanged, in particular the two
    decision sets. -/
theorem go_back_discards_preview_only (s : BatchState) :
    (goBackToDecisions s).preview = none ∧
    (goBackToDecisions s).commentPreview = none ∧
    (goBackToDecisions s).workflowStep = WorkflowStep.decisions ∧
    (goBackToDecisions s).selectedRequests = s.selectedRequests ∧
    (goBackToDecisions s).rejectedRequests = s.rejectedRequests ∧
    (goBackToDecisions s).selectedExpense = s.selectedExpense ∧
    (goBackToDecisions s).groupedRequests = s.groupedRequests ∧
    (goBackToDecisions s).processing = s.processing ∧
    (goBackToDecisions s).adminNotes = s.adminNotes ∧
    (goBackToDecisions s).expenseStatus = s.expenseStatus :=
  ⟨rfl, rfl, rfl, rfl, rfl, rfl, rfl, rfl, rfl, rfl⟩

/-- C3 counterexample: an ordinary, retryable apply failure (external
    ledger update failed, nothing mutated) is surfaced with exactly the
    same CRITICAL alert as a critical failure with the same detail, so
    the user-visible message for an ordinary failure IS the critical
    one, refuting the claimed distinction. -/
theorem ordinary_failure_shown_as_critical :
    applyResultAlert (outcomeToResp
        (ApplyOutcome.ordinaryFailure "Splitwise update failed")) =
      "❌ CRITICAL ERROR:\nSplitwise update failed" ∧
    applyResultAlert (outcomeToResp
        (ApplyOutcome.ordinaryFailure "Splitwise update failed")) =
      applyResultAlert (outcomeToResp
        (ApplyOutcome.criticalFailure "Splitwise update failed")) :=
  ⟨rfl, rfl⟩

/-- C3 amended: the component does not distinguish the two failure
    classes: every server-reported apply failure, ordinary or critical,
    is shown with the same CRITICAL-error alert built from its detail,
    and only a thrown network error produces the distinct generic
    message. -/
theorem apply_failure_messages_indistinct (reason : String) :
    applyResultAlert (outcomeToResp (ApplyOutcome.ordinaryFailure reason)) =
      "❌ CRITICAL ERROR:\n" ++ reason ∧
    applyResultAlert (outcomeToResp (ApplyOutcome.criticalFailure reason)) =
      "❌ CRITICAL ERROR:\n" ++ reason ∧
    applyResultAlert ApplyResp.networkError = "❌ Network error occurred" :=
  ⟨rfl, rfl, rfl⟩

/-- C10 counterexample: when checkAdminStatus runs before the user
    object is loaded, it returns early yet still clears the loading
    flag, so AdminPage renders AdminDashboard with isAdmin still null,
    even for a user whose probe would return 403 — so rendering is not
    determined solely by an OK probe response. -/
theorem admin_dashboard_rendered_before_user_loaded :
    renderAdminPage
        (checkAdminStatus initialAdminState false ProbeResult.forbidden) =
      AdminRender.dashboard ∧
    ProbeResult.forbidden ≠ ProbeResult.ok := by
  decide

/-- C10 amended: once the user object is loaded, the access decision is
    fail-closed and determined solely by the probe outcome: an OK
    response renders AdminDashboard, while a 403, any other non-OK
    status, and a thrown network error all render Access Denied. -/
theorem admin_access_fail_closed_after_load (probe : ProbeResult) :
    renderAdminPage (checkAdminStatus initialAdminState true probe) =
      (if probe = ProbeResult.ok then AdminRender.dashboard
       else AdminRender.accessDenied) := by
  cases probe <;> decide

/-- Division of any finite JS number by zero never produces a finite
    result: Infinity, -Infinity or NaN depending on the dividend. -/
theorem jsDiv_by_zero_not_finite (a : ℚ) : (jsDiv a 0).isFinite = false := by
  unfold jsDiv
  rw [if_pos rfl]
  split
  · rfl
  · split <;> rfl

/-- C9: the member-facing per-person computations divide the item price
    by the member count with no emptiness guard, so for an item with an
    empty member list both displayed amounts are JavaScript division by
    zero and are not finite numbers. -/
theorem empty_members_share_not_finite (item : SplitItem)
    (h : item.members = []) :
    (splitAmount item).isFinite = false ∧
    (dashboardItemShare item).isFinite = false := by
  have h0 : ((item.members.length : ℚ)) = 0 := by rw [h]; simp
  constructor
  · unfold splitAmount
    rw [h0]
    exact jsDiv_by_zero_not_finite _
  · unfold dashboardItemShare
    rw [h0]
    exact jsDiv_by_zero_not_finite _

/-- Witness for C9 at a concrete item with an empty member list. -/
theorem empty_members_share_not_finite_witness :
    emptySplitItem.members = [] ∧
    (splitAmount emptySplitItem).isFinite = false ∧
    (dashboardItemShare emptySplitItem).isFinite = false :=
  ⟨rfl, empty_members_share_not_finite emptySplitItem rfl⟩

/-- C7: for an item with a non-empty member set, the per-person amount
    in the SplitDetail item view and the Dashboard per-item share both
    equal the item's price divided by the number of members sharing it,
    and the Dashboard "Your Items" list displays exactly that amount for
    every item the member participates in. -/
theorem per_person_share_is_price_div_members (item : SplitItem)
    (hne : item.members ≠ []) :
    splitAmount item = JSNum.fin (item.price / item.members.length) ∧
    dashboardItemShare item = JSNum.fin (item.price / item.members.length) ∧
    ∀ (items : List SplitItem) (memberName : String),
      item ∈ items → item.members.contains memberName →
      (item.name, JSNum.fin (item.price / item.members.length)) ∈
        dashboardYourItems items memberName := by
  have h0 : item.members.length ≠ 0 := fun hl => hne (List.length_eq_zero.mp hl)
  have hcast : ((item.members.length : ℚ)) ≠ 0 := Nat.cast_ne_zero.mpr h0
  have hshare : jsDiv item.price item.members.length =
      JSNum.fin (item.price / item.members.length) := by
    unfold jsDiv
    rw [if_neg hcast]
  refine ⟨hshare, hshare, ?_⟩
  intro items memberName hmem hcontains
  have : (item.name, dashboardItemShare item) ∈ dashboardYourItems items memberName := by
    unfold dashboardYourItems
    exact List.mem_map_of_mem _ (List.mem_filter.mpr ⟨hmem, by simpa using hcontains⟩)
  simpa [dashboardItemShare, hshare] using this

/-- Witness for C7: for the Pizza item shared by A, B, C the displayed
    share is 10, in both views and in the dashboard list for member A. -/
theorem per_person_share_is_price_div_members_witness :
    pizzaSplitItem.members ≠ [] ∧
    splitAmount pizzaSplitItem =
      JSNum.fin (pizzaSplitItem.price / pizzaSplitItem.members.length) ∧
    splitAmount pizzaSplitItem = JSNum.fin 10 ∧
    ("Pizza", JSNum.fin (pizzaSplitItem.price / pizzaSplitItem.members.length)) ∈
      dashboardYourItems [pizzaSplitItem] "A" :=
  ⟨by decide,
   (per_person_share_is_price_div_members pizzaSplitItem (by decide)).1,
   by
     rw [(per_person_share_is_price_div_members pizzaSplitItem (by decide)).1]
     norm_num [pizzaSplitItem],
   (per_person_share_is_price_div_members pizzaSplitItem (by decide)).2.2
     [pizzaSplitItem] "A" (List.mem_singleton.mpr rfl) (by decide)⟩

/-- toggleRequestSelection never changes the workflow step. -/
theorem toggle_workflowStep (s : BatchState) (rid : String) (a : ToggleAction) :
    (toggleRequestSelection s rid a).workflowStep = s.workflowStep := by
  cases a
  · by_cases hm : rid ∈ s.selectedRequests <;> simp [toggleRequestSelection, hm]
  · by_cases hm : rid ∈ s.rejectedRequests <;> simp [toggleRequestSelection, hm]

/-- commitDecisions leaves the step unchanged or moves it to preview. -/
theorem commitDecisions_workflowStep (s : BatchState) (ok : Bool) :
    (commitDecisions s ok).workflowStep = s.workflowStep ∨
    (commitDecisions s ok).workflowStep = WorkflowStep.preview := by
  unfold commitDecisions
  rcases s.selectedExpense with _ | e
  · exact Or.inl rfl
  · cases ok
    · exact Or.inl rfl
    · exact Or.inr rfl

/-- A status-derived step is completed only when the server string is
    "completed" or the step already was completed. -/
theorem stepOfStatus_completed (cur : WorkflowStep) (ws : String)
    (h : stepOfStatus cur ws = WorkflowStep.completed) :
    ws = "completed" ∨ cur = WorkflowStep.completed := by
  by_cases h1 : ws = "needs_decisions"
  · simp [stepOfStatus, h1] at h
  · by_cases h2 : ws = "ready_for_preview"
    · simp [stepOfStatus, h1, h2] at h
    · by_cases h3 : ws = "completed"
      · exact Or.inl h3
      · simp [stepOfStatus, h1, h2, h3] at h
        exact Or.inr h

/-- C6 counterexample: a trace of caller-initiated transitions in which
    the step moves from decisions directly to completed without ever
    being preview: fetch the groups, select expense e1 (step stays
    decisions throughout), then checkExpenseStatus receives a server
    workflow_status of "completed". -/
theorem status_check_jumps_decisions_to_completed :
    initState.workflowStep = WorkflowStep.decisions ∧
    (stepEvent initState (Event.fetchGrouped ["e1"])).workflowStep =
      WorkflowStep.decisions ∧
    (stepEvent (stepEvent initState (Event.fetchGrouped ["e1"]))
        (Event.selectExpense "e1")).workflowStep = WorkflowStep.decisions ∧
    (stepEvent (stepEvent (stepEvent initState (Event.fetchGrouped ["e1"]))
        (Event.selectExpense "e1"))
        (Event.checkStatus (some "completed"))).workflowStep =
      WorkflowStep.completed := by
  decide

/-- C6 amended: the only caller-initiated transition that moves the
    workflow step from decisions directly to completed is
    checkExpenseStatus receiving a server-reported "completed" status;
    every button-initiated transition (expense selection, commit,
    preview, apply, go-back, process-another, toggles, notes) never
    does. -/
theorem decisions_to_completed_only_via_status_check (s : BatchState)
    (e : Event) (hd : s.workflowStep = WorkflowStep.decisions)
    (hc : (stepEvent s e).workflowStep = WorkflowStep.completed) :
    e = Event.checkStatus (some "completed") := by
  by_cases hen : eventEnabled s e = true
  case neg =>
    rw [stepEvent, if_neg hen, hd] at hc
    simp at hc
  case pos =>
    rw [stepEvent, if_pos hen] at hc
    cases e with
    | fetchGrouped ids =>
        rw [show (applyEvent s (Event.fetchGrouped ids)).workflowStep =
              s.workflowStep from rfl, hd] at hc
        simp at hc
    | selectExpense eid =>
        rw [show (applyEvent s (Event.selectExpense eid)).workflowStep =
              WorkflowStep.decisions from rfl] at hc
        simp at hc
    | checkStatus resp =>
        cases resp with
        | none =>
            rw [show (applyEvent s (Event.checkStatus none)).workflowStep =
                  s.workflowStep from rfl, hd] at hc
            simp at hc
        | some ws =>
            rw [show (applyEvent s (Event.checkStatus (some ws))).workflowStep =
                  stepOfStatus s.workflowStep ws from rfl, hd] at hc
            rcases stepOfStatus_completed _ _ hc with h | h
            · rw [h]
            · simp at h
    | toggle rid a =>
        rw [show applyEvent s (Event.toggle rid a) =
              toggleRequestSelection s rid a from rfl,
            toggle_workflowStep, hd] at hc
        simp at hc
    | commit ok =>
        rcases commitDecisions_workflowStep s ok with h | h
        · rw [show applyEvent s (Event.commit ok) = commitDecisions s ok
              from rfl, h, hd] at hc
          simp at hc
        · rw [show applyEvent s (Event.commit ok) = commitDecisions s ok
              from rfl, h] at hc
          simp at hc
    | previewReq r =>
        simp [eventEnabled, hd] at hen
    | applyReq ok =>
        simp [eventEnabled, applyButtonEnabled, applyButtonRendered, hd] at hen
    | goBack =>
        simp [eventEnabled, hd] at hen
    | processAnother =>
        simp [eventEnabled, hd] at hen
    | setNotes n =>
        rw [show (applyEvent s (Event.setNotes n)).workflowStep =
              s.workflowStep from rfl, hd] at hc
        simp at hc

/-- Witness for the amended C6 at the concrete trace of the
    counterexample. -/
theorem decisions_to_completed_only_via_status_check_witness :
    (stepEvent (stepEvent initState (Event.fetchGrouped ["e1"]))
        (Event.selectExpense "e1")).workflowStep = WorkflowStep.decisions ∧
    (stepEvent (stepEvent (stepEvent initState (Event.fetchGrouped ["e1"]))
        (Event.selectExpense "e1"))
        (Event.checkStatus (some "completed"))).workflowStep =
      WorkflowStep.completed ∧
    Event.checkStatus (some "completed") =
      Event.checkStatus (some "completed") :=
  ⟨by decide, by decide,
   decisions_to_completed_only_via_status_check
     (stepEvent (stepEvent initState (Event.fetchGrouped ["e1"]))
       (Event.selectExpense "e1"))
     (Event.checkStatus (some "completed")) (by decide) (by decide)⟩

/-- Inserting x on one side while erasing it from the other preserves
    disjointness of two finsets. -/
theorem insert_erase_disjoint (x : String) (A B : Finset String)
    (h : Disjoint A B) : Disjoint (insert x A) (B.erase x) := by
  rw [Finset.disjoint_left]
  intro a ha
  rcases Finset.mem_insert.mp ha with rfl | ha
  · exact Finset.not_mem_erase _ _
  · intro hb
    exact Finset.disjoint_left.mp h ha (Finset.mem_of_mem_erase hb)

/-- toggleRequestSelection preserves disjointness of the approved and
    rejected sets. -/
theorem toggle_disjoint (s : BatchState) (rid : String) (a : ToggleAction)
    (h : Disjoint s.selectedRequests s.rejectedRequests) :
    Disjoint (toggleRequestSelection s rid a).selectedRequests
      (toggleRequestSelection s rid a).rejectedRequests := by
  cases a
  · by_cases hm : rid ∈ s.selectedRequests <;>
      simp only [toggleRequestSelection, hm, if_pos, if_neg, ite_true, ite_false]
    · exact Finset.disjoint_of_subset_left (Finset.erase_subset _ _) h
    · exact insert_erase_disjoint rid _ _ h
  · by_cases hm : rid ∈ s.rejectedRequests <;>
      simp only [toggleRequestSelection, hm, if_pos, if_neg, ite_true, ite_false]
    · exact Finset.disjoint_of_subset_right (Finset.erase_subset _ _) h
    · exact (insert_erase_disjoint rid _ _ h.symm).symm

/-- commitDecisions does not modify the decision sets. -/
theorem commitDecisions_sets (s : BatchState) (ok : Bool) :
    (commitDecisions s ok).selectedRequests = s.selectedRequests ∧
    (commitDecisions s ok).rejectedRequests = s.rejectedRequests := by
  unfold commitDecisions
  rcases s.selectedExpense with _ | e
  · exact ⟨rfl, rfl⟩
  · cases ok <;> exact ⟨rfl, rfl⟩

/-- previewSplitwiseChanges does not modify the decision sets. -/
theorem previewSplitwise_sets (s : BatchState) (r : PreviewResp) :
    (previewSplitwiseChanges s r).selectedRequests = s.selectedRequests ∧
    (previewSplitwiseChanges s r).rejectedRequests = s.rejectedRequests := by
  unfold previewSplitwiseChanges
  rcases s.selectedExpense with _ | e
  · exact ⟨rfl, rfl⟩
  · cases r <;> exact ⟨rfl, rfl⟩

/-- applyToSplitwiseAndMongoDB does not modify the decision sets. -/
theorem applyToSplitwise_sets (s : BatchState) (ok : Bool) :
    (applyToSplitwiseAndMongoDB s ok).selectedRequests = s.selectedRequests ∧
    (applyToSplitwiseAndMongoDB s ok).rejectedRequests = s.rejectedRequests := by
  unfold applyToSplitwiseAndMongoDB
  rcases s.selectedExpense with _ | e
  · exact ⟨rfl, rfl⟩
  · cases ok <;> exact ⟨rfl, rfl⟩

/-- checkExpenseStatus does not modify the decision sets. -/
theorem checkStatus_sets (s : BatchState) (resp : Option String) :
    (checkExpenseStatus s resp).selectedRequests = s.selectedRequests ∧
    (checkExpenseStatus s resp).rejectedRequests = s.rejectedRequests := by
  cases resp <;> exact ⟨rfl, rfl⟩

/-- C8: in every reachable state of BatchReviewComponent the approved
    set and the rejected set are disjoint; in particular the id lists
    commitDecisions sends never share a request id. -/
theorem decision_sets_disjoint (s : BatchState) (h : Reachable s) :
    Disjoint (commitRequestBody s).1 (commitRequestBody s).2 := by
  unfold commitRequestBody
  induction h with
  | init =>
      simp [initState]
  | step s e hs ih =>
      by_cases hen : eventEnabled s e = true
      · rw [stepEvent, if_pos hen]
        cases e with
        | fetchGrouped ids => exact ih
        | selectExpense eid =>
            rw [show (applyEvent s (Event.selectExpense eid)).selectedRequests =
                  (∅ : Finset String) from rfl]
            exact Finset.disjoint_empty_left _
        | checkStatus resp =>
            rw [show applyEvent s (Event.checkStatus resp) =
                  checkExpenseStatus s resp from rfl,
                (checkStatus_sets s resp).1, (checkStatus_sets s resp).2]
            exact ih
        | toggle rid a => exact toggle_disjoint s rid a ih
        | commit ok =>
            rw [show applyEvent s (Event.commit ok) = commitDecisions s ok
                  from rfl,
                (commitDecisions_sets s ok).1, (commitDecisions_sets s ok).2]
            exact ih
        | previewReq r =>
            rw [show applyEvent s (Event.previewReq r) =
                  previewSplitwiseChanges s r from rfl,
                (previewSplitwise_sets s r).1, (previewSplitwise_sets s r).2]
            exact ih
        | applyReq ok =>
            rw [show applyEvent s (Event.applyReq ok) =
                  applyToSplitwiseAndMongoDB s ok from rfl,
                (applyToSplitwise_sets s ok).1, (applyToSplitwise_sets s ok).2]
            exact ih
        | goBack => exact ih
        | processAnother => exact ih
        | setNotes n => exact ih
      · rw [stepEvent, if_neg hen]
        exact ih

/-- Witness for C8: the state reached by fetching groups, selecting
    expense e1 and approving request r1 is reachable, its approved set
    is exactly r1, and its decision sets are disjoint. -/
theorem decision_sets_disjoint_witness :
    (stepEvent (stepEvent (stepEvent initState (Event.fetchGrouped ["e1"]))
        (Event.selectExpense "e1"))
        (Event.toggle "r1" ToggleAction.approve)).selectedRequests =
      {"r1"} ∧
    Disjoint
      (commitRequestBody
        (stepEvent (stepEvent (stepEvent initState
            (Event.fetchGrouped ["e1"])) (Event.selectExpense "e1"))
          (Event.toggle "r1" ToggleAction.approve))).1
      (commitRequestBody
        (stepEvent (stepEvent (stepEvent initState
            (Event.fetchGrouped ["e1"])) (Event.selectExpense "e1"))
          (Event.toggle "r1" ToggleAction.approve))).2 :=
  ⟨by decide,
   decision_sets_disjoint _
     (Reachable.step _ _ (Reachable.step _ _
       (Reachable.step _ _ Reachable.init)))⟩

/-- For an item whose new member set is non-empty, the per-person
    allocation times the member count recovers the item price exactly. -/
theorem newSplit_mul_card (it : Item) (approved : List ApprovedChange)
    (h : (newMembers it approved).card ≠ 0) :
    newSplitPerPerson it approved * ((newMembers it approved).card : ℚ) =
      it.price := by
  unfold newSplitPerPerson
  exact div_mul_cancel₀ _ (Nat.cast_ne_zero.mpr h)

/-- The aggregate new total equals the sum of the item prices whenever
    every item keeps at least one member. -/
theorem newTotal_eq_price_sum (approved : List ApprovedChange) :
    ∀ (l : List Item), (∀ it ∈ l, (newMembers it approved).card ≠ 0) →
      newTotalExpense l approved = (l.map (fun it => it.price)).sum := by
  intro l
  induction l with
  | nil => intro _; rfl
  | cons it rest ih =>
      intro hl
      unfold newTotalExpense
      simp only [List.map_cons, List.sum_cons]
      rw [newSplit_mul_card it approved (hl it (List.mem_cons_self _ _))]
      have := ih (fun x hx => hl x (List.mem_cons_of_mem _ hx))
      unfold newTotalExpense at this
      rw [this]

/-- C2: for every set of approved join/leave decisions in which no item
    is left memberless, the aggregate of the recomputed split — the sum
    over items of new_split_per_person times the size of the item's new
    member set — equals the original expense total (exactly, hence
    within the one-cent tolerance), and the validation result reports
    exactly this comparison: matching totals, total_matches true,
    difference zero. -/
theorem reconciliation_total_preserved (items : List Item)
    (approved : List ApprovedChange) (originalTotal : ℚ)
    (htot : originalTotal = (items.map (fun it => it.price)).sum)
    (hne : ∀ it ∈ items, (newMembers it approved).card ≠ 0) :
    newTotalExpense items approved = originalTotal ∧
    (reconciliationValidator items approved originalTotal).total_matches =
      true ∧
    (reconciliationValidator items approved originalTotal).new_total =
      newTotalExpense items approved ∧
    (reconciliationValidator items approved originalTotal).original_total =
      originalTotal ∧
    (reconciliationValidator items approved originalTotal).difference = 0 := by
  have hnt : newTotalExpense items approved = originalTotal := by
    rw [htot]
    exact newTotal_eq_price_sum approved items hne
  refine ⟨hnt, ?_, rfl, rfl, ?_⟩
  · unfold reconciliationValidator
    simp only [hnt, decide_eq_true_eq]
    rw [sub_self]
    norm_num
  · unfold reconciliationValidator
    simp only [hnt, sub_self]

/-- Witness for C2 at the spec's pizza/soda scenario: after approving
    D-joins-Pizza and A-leaves-Pizza, Pizza's members are B, C, D, the
    new total is 60 = the original total, and validation passes. -/
theorem reconciliation_total_preserved_witness :
    ((60 : ℚ) = ([pizzaItem, sodaItem].map (fun it => it.price)).sum) ∧
    (∀ it ∈ [pizzaItem, sodaItem],
      (newMembers it sampleApproved).card ≠ 0) ∧
    newMembers pizzaItem sampleApproved = {"B", "C", "D"} ∧
    newTotalExpense [pizzaItem, sodaItem] sampleApproved = 60 ∧
    (reconciliationValidator [pizzaItem, sodaItem] sampleApproved
        60).total_matches = true :=
  ⟨by norm_num [pizzaItem, sodaItem],
   by decide,
   by decide,
   (reconciliation_total_preserved [pizzaItem, sodaItem] sampleApproved 60
     (by norm_num [pizzaItem, sodaItem]) (by decide)).1,
   (reconciliation_total_preserved [pizzaItem, sodaItem] sampleApproved 60
     (by norm_num [pizzaItem, sodaItem]) (by decide)).2.1⟩

end SplitwiseAI
